import Mathlib

set_option linter.unusedVariables false
set_option maxRecDepth 100000

/-!
Verification development for the ACC Shark Tank registration system.

The subject is the in-memory per-action-class rate limiter (three
textually identical copies live in the submission handler, the login
handler and the AI-generation handler, differing only in their
constants) and the deterministic fallback content generator of the
AI-generation handler.  JavaScript functions are embedded shallowly:
the per-class Map becomes a function from keys to optional records,
Date.now() becomes an explicit natural-number parameter, and the
template-literal generators become pure string functions.
-/

namespace SharkTank

/-! ### Basic character-list helpers (JS string primitives) -/

/-- Does the character list start with the given pattern?
(Embeds the prefix test underlying JS String.prototype.includes.) -/
def startsWithChars : List Char → List Char → Bool
  | _, [] => true
  | [], _ :: _ => false
  | c :: cs, d :: ds => c == d && startsWithChars cs ds

/-- Does the pattern occur as a contiguous run anywhere in the list? -/
def containsChars : List Char → List Char → Bool
  | [], n => n.isEmpty
  | c :: cs, n => startsWithChars (c :: cs) n || containsChars cs n

/-- JS s.includes(pat): substring occurrence test. -/
def containsSub (s pat : String) : Bool :=
  containsChars s.data pat.data

/-- JS String.prototype.toLowerCase restricted to ASCII, which covers
every string the handlers manipulate. -/
def lowerStr (s : String) : String :=
  String.mk (s.data.map Char.toLower)

/-- ASCII whitespace recognised by the embedding of JS trim. -/
def isWsChar (c : Char) : Bool :=
  c == ' ' || c == '\t' || c == '\n' || c == '\r'

/-- JS String.prototype.trim (ASCII whitespace). -/
def trimStr (s : String) : String :=
  String.mk (((s.data.dropWhile isWsChar).reverse.dropWhile isWsChar).reverse)

/-- JS s.charAt(0).toUpperCase() + s.slice(1). -/
def capitalizeFirst (s : String) : String :=
  match s.data with
  | [] => ""
  | c :: cs => String.mk (Char.toUpper c :: cs)

/-- JS Array.prototype.join with the given separator. -/
def joinSep (sep : String) : List String → String
  | [] => ""
  | [x] => x
  | x :: y :: xs => x ++ sep ++ joinSep sep (y :: xs)

/-! ### Rate limiter

Embeds the three identical in-memory limiters:
submission (part_000: MAX_SUBMISSIONS = 3, COOLDOWN_PERIOD = 3600000 ms),
login (api/login.js: MAX_ATTEMPTS = 5, LOCKOUT_DURATION = 900000 ms) and
AI generation (part_003: MAX_GENERATIONS = 10, GENERATION_COOLDOWN =
3600000 ms).  The JS Map keyed by client id becomes a function from
String to Option RateRecord; Date.now() becomes the parameter now. -/

/-- One per-client entry of a limiter Map: the JS object
with fields count and lastSubmission / lastAttempt / lastGeneration
(named lastActivity here, as in the specification). -/
structure RateRecord where
  count : Nat
  lastActivity : Nat
  deriving DecidableEq, Repr

/-- The per-action-class in-memory Map. -/
def Table : Type := String → Option RateRecord

/-- The Map with no entries. -/
def emptyTable : Table := fun _ => none

/-- JS map.set(k, r) (unique keys: later set replaces). -/
def Table.set (m : Table) (k : String) (r : RateRecord) : Table :=
  fun k2 => if k2 = k then some r else m k2

/-- JS map.delete(k). -/
def Table.erase (m : Table) (k : String) : Table :=
  fun k2 => if k2 = k then none else m k2

/-- isRateLimited(clientId), identical in part_000, api/login.js and
part_003 up to renaming of the map and constants: absent record gives
false with no mutation; a record past the cooldown is deleted and gives
false; otherwise the answer is count >= maxCount with no mutation.
Returns the boolean together with the (possibly mutated) map. -/
def isRateLimited (maxCount window now : Nat) (m : Table) (k : String) :
    Bool × Table :=
  match m k with
  | none => (false, m)
  | some r =>
    if now - r.lastActivity > window then (false, Table.erase m k)
    else (decide (r.count ≥ maxCount), m)

/-- recordSubmission / recordFailedAttempt / recordGeneration, identical
in the three handlers: fetch the record (defaulting to count 0,
timestamp 0), increment the count, refresh the timestamp, store back. -/
def recordAction (now : Nat) (m : Table) (k : String) : Table :=
  let r := (m k).getD { count := 0, lastActivity := 0 }
  Table.set m k { count := r.count + 1, lastActivity := now }

/-- clearRateLimit(clientId) in api/login.js: unconditional delete. -/
def clearRateLimit (m : Table) (k : String) : Table :=
  Table.erase m k

/-- The setInterval cleanup body shared by the three handlers: delete
every record whose age exceeds the window, keep the rest untouched. -/
def cleanupSweep (window now : Nat) (m : Table) : Table :=
  fun k =>
    match m k with
    | some r => if now - r.lastActivity > window then none else some r
    | none => none

/-- Replaying a list of recordAction calls (earliest first), each with
its own timestamp, for one client key. -/
def iterRecord (k : String) : List Nat → Table → Table
  | [], m => m
  | t :: ts, m => iterRecord k ts (recordAction t m k)

/-- MAX_SUBMISSIONS in part_000. -/
def MAX_SUBMISSIONS : Nat := 3

/-- COOLDOWN_PERIOD in part_000 (one hour, in milliseconds). -/
def COOLDOWN_PERIOD : Nat := 60 * 60 * 1000

/-- MAX_ATTEMPTS in api/login.js. -/
def MAX_ATTEMPTS : Nat := 5

/-- LOCKOUT_DURATION in api/login.js (15 minutes, in milliseconds). -/
def LOCKOUT_DURATION : Nat := 15 * 60 * 1000

/-- MAX_GENERATIONS in part_003. -/
def MAX_GENERATIONS : Nat := 10

/-- GENERATION_COOLDOWN in part_003 (one hour, in milliseconds). -/
def GENERATION_COOLDOWN : Nat := 60 * 60 * 1000

/-! ### Fallback content generator (part_003)

The generator's inputs object carries optional free-text fields.  The
embedding fixes the field set to the keys the handler reads.  JS object
key order (used only by the generic template's KEY ELEMENTS listing) is
embedded as the fixed declaration order below. -/

/-- The inputs mapping of a generation request; absent JS keys are none.
An empty string is falsy in JS, which jsOr and the sanitizer honour. -/
structure Inputs where
  concept : Option String := none
  problem : Option String := none
  solution : Option String := none
  market : Option String := none
  advantage : Option String := none
  funding : Option String := none
  needs : Option String := none
  businessName : Option String := none
  financials : Option String := none
  deriving DecidableEq

/-- The empty input mapping. -/
def emptyInputs : Inputs := {}

/-- JS defaulting idiom v || d : undefined and the empty string fall
back to the default. -/
def jsOr (v : Option String) (d : String) : String :=
  match v with
  | none => d
  | some s => if s = "" then d else s

/-- Object.entries(inputs), present fields only, in field order. -/
def entriesOf (i : Inputs) : List (String × String) :=
  (match i.concept with | some v => [("concept", v)] | none => []) ++
  (match i.problem with | some v => [("problem", v)] | none => []) ++
  (match i.solution with | some v => [("solution", v)] | none => []) ++
  (match i.market with | some v => [("market", v)] | none => []) ++
  (match i.advantage with | some v => [("advantage", v)] | none => []) ++
  (match i.funding with | some v => [("funding", v)] | none => []) ++
  (match i.needs with | some v => [("needs", v)] | none => []) ++
  (match i.businessName with | some v => [("businessName", v)] | none => []) ++
  (match i.financials with | some v => [("financials", v)] | none => [])

/-- generatePlaceholderContent(inputType): canned realistic defaults for
the three business-description fields, with a generic fallback. -/
def generatePlaceholderContent (inputType : String) : String :=
  if inputType = "business concept" then
    "innovative digital platform that connects students with local businesses for real-world learning opportunities"
  else if inputType = "problem statement" then
    "students struggle to gain practical experience while businesses need fresh perspectives and affordable help"
  else if inputType = "funding/resource needs" then
    "seed funding to develop the platform, hire developers, and launch marketing campaigns"
  else
    "comprehensive " ++ inputType ++ " that addresses market needs"

/-- sanitizeAndEnhanceInput(input, inputType): missing, empty,
whitespace-only, or any input whose lowercased text contains the
substring test is replaced by the canned placeholder; otherwise the
trimmed input is kept. -/
def sanitizeAndEnhanceInput (input : Option String) (inputType : String) :
    String :=
  match input with
  | none => generatePlaceholderContent inputType
  | some s =>
    if s = "" || (trimStr s).data.isEmpty || containsSub (lowerStr s) "test"
    then generatePlaceholderContent inputType
    else trimStr s

/-- identifyBusinessType(conceptLower): first matching keyword family
wins, in source order. -/
def identifyBusinessType (conceptLower : String) : String :=
  if containsSub conceptLower "manager" || containsSub conceptLower "management" then
    "management_platform"
  else if containsSub conceptLower "digital" &&
      (containsSub conceptLower "service" || containsSub conceptLower "tool") then
    "digital_services"
  else if containsSub conceptLower "platform" || containsSub conceptLower "software" ||
      containsSub conceptLower "app" then
    "software_platform"
  else if containsSub conceptLower "consulting" || containsSub conceptLower "advisor" then
    "consulting_service"
  else
    "general_business"

/-- extractKeyWords(conceptLower): accumulate capability phrases in
source order, defaulting to two generic phrases when none matched. -/
def extractKeyWords (conceptLower : String) : List String :=
  let keywords :=
    (if containsSub conceptLower "endpoint" || containsSub conceptLower "device" then
      ["device management"] else []) ++
    (if containsSub conceptLower "marketing" then ["marketing automation"] else []) ++
    (if containsSub conceptLower "online" || containsSub conceptLower "digital" then
      ["digital solutions"] else []) ++
    (if containsSub conceptLower "tool" then ["business tools"] else []) ++
    (if containsSub conceptLower "management" || containsSub conceptLower "manager" then
      ["management systems"] else []) ++
    (if containsSub conceptLower "security" then ["security solutions"] else []) ++
    (if containsSub conceptLower "analytics" then ["data analytics"] else []) ++
    (if containsSub conceptLower "automation" then ["process automation"] else [])
  if keywords = [] then ["business solutions", "operational efficiency"] else keywords

/-- extractTargetMarket(conceptLower): first matching market keyword in
source order, defaulting to small and medium businesses. -/
def extractTargetMarket (conceptLower : String) : String :=
  if containsSub conceptLower "small business" then "small businesses"
  else if containsSub conceptLower "enterprise" then "enterprise clients"
  else if containsSub conceptLower "startup" then "startups"
  else if containsSub conceptLower "home" then "home-based businesses"
  else if containsSub conceptLower "restaurant" then "restaurants"
  else if containsSub conceptLower "retail" then "retail businesses"
  else if containsSub conceptLower "healthcare" then "healthcare providers"
  else if containsSub conceptLower "education" then "educational institutions"
  else "small and medium businesses"

/-- generateIntelligentSolution(concept, problem): category-specific
solution paragraph spliced with the keyword phrases, target market and
the problem text. -/
def generateIntelligentSolution (concept problem : String) : String :=
  let conceptLower := lowerStr concept
  let businessType := identifyBusinessType conceptLower
  let keyWords := extractKeyWords conceptLower
  if businessType = "management_platform" then
    "We provide comprehensive " ++ joinSep " and " keyWords ++
    " management solutions specifically designed for " ++
    extractTargetMarket conceptLower ++ ". Our platform addresses " ++ problem ++
    " by offering an integrated suite of tools that streamline operations, reduce costs, and improve efficiency. Unlike expensive enterprise solutions, we focus on affordability and ease of use without sacrificing functionality."
  else if businessType = "digital_services" then
    "Our digital services platform specializes in " ++ joinSep ", " keyWords ++
    " for " ++ extractTargetMarket conceptLower ++ ". We solve " ++ problem ++
    " by providing accessible, professional-grade tools and services that were previously only available to large corporations. Our approach combines automation, expert guidance, and cost-effective pricing to deliver enterprise-level results."
  else if businessType = "software_platform" then
    "We\x27ve developed a software platform that specifically targets " ++ problem ++
    " through " ++ joinSep " and " keyWords ++
    " capabilities. Our solution provides " ++ extractTargetMarket conceptLower ++
    " with the tools they need to compete effectively while maintaining affordability and simplicity."
  else if businessType = "consulting_service" then
    "We offer specialized consulting services focused on " ++ joinSep ", " keyWords ++
    " for " ++ extractTargetMarket conceptLower ++ ". Our approach to " ++ problem ++
    " involves hands-on guidance, practical implementation, and ongoing support to ensure sustainable results."
  else
    "Our business model centers on " ++ joinSep ", " keyWords ++
    " solutions that directly address " ++ problem ++
    ". We\x27ve identified that " ++ extractTargetMarket conceptLower ++
    " need accessible, cost-effective alternatives to current market offerings, and our approach delivers exactly that."

/-- generateMarketAnalysis(concept, problem): market paragraph selected
by concept keywords. -/
def generateMarketAnalysis (concept problem : String) : String :=
  let conceptLower := lowerStr concept
  if containsSub conceptLower "student" || containsSub conceptLower "education" then
    "Our primary target market consists of students, educational institutions, and businesses seeking to connect with student talent. This represents a multi-billion dollar opportunity with strong growth potential, driven by increasing demand for practical learning experiences and affordable, skilled assistance."
  else if containsSub conceptLower "small business" || containsSub conceptLower "entrepreneur" then
    "We target small and medium-sized businesses, entrepreneurs, and startups who need cost-effective solutions to grow their operations. This market segment is underserved by current offerings and represents significant opportunity for scalable growth."
  else
    "Our target market consists of individuals and businesses who currently struggle with this problem. Based on market research and industry trends, this represents a substantial opportunity with strong growth potential and clear demand for innovative solutions."

/-- generateCompetitiveAdvantage(concept): five fixed bullets plus two
conditional ones, joined with newlines. -/
def generateCompetitiveAdvantage (concept : String) : String :=
  let conceptLower := lowerStr concept
  let advantages :=
    ["- Innovative technology approach with user-centered design",
     "- Cost-effective pricing model that delivers superior value",
     "- Scalable business model with strong unit economics",
     "- Deep market understanding and customer relationships",
     "- Experienced team with relevant expertise and proven track record"]
  let advantages := advantages ++
    (if containsSub conceptLower "ai" || containsSub conceptLower "machine learning" then
      ["- Advanced AI and machine learning capabilities"] else [])
  let advantages := advantages ++
    (if containsSub conceptLower "mobile" || containsSub conceptLower "app" then
      ["- Mobile-first design optimized for modern user behavior"] else [])
  joinSep "\n" advantages

/-- generateFundingStrategy(needs, concept): fixed paragraph, arguments
unused in the source as well. -/
def generateFundingStrategy (needs concept : String) : String :=
  "With the right funding and strategic support, we plan to:\n- Accelerate product development and market validation\n- Build a world-class team of developers and market experts\n- Launch comprehensive marketing and customer acquisition campaigns\n- Establish strategic partnerships that enhance our market position\n- Scale operations efficiently to capture significant market share"

/-- generateActionPlan(concept, problem): fixed paragraph. -/
def generateActionPlan (concept problem : String) : String :=
  "Our immediate priorities include:\n- Complete minimum viable product development and testing\n- Launch pilot program with select customers for validation\n- Gather comprehensive customer feedback and iterate rapidly\n- Refine business model based on real market data\n- Scale operations systematically to ensure sustainable growth\n- Build strategic partnerships that accelerate market penetration"

/-- generateClosingStatement(concept): fixed paragraph. -/
def generateClosingStatement (concept : String) : String :=
  "This represents a significant opportunity to make a meaningful impact while building a sustainable and profitable business. Our team is committed to delivering innovative solutions that address real market needs, create exceptional value for customers, and generate strong returns for investors."

/-- generateSolutionDetails(concept, problem): fixed paragraph. -/
def generateSolutionDetails (concept problem : String) : String :=
  "Our approach combines proven business principles with innovative execution to deliver measurable results. We focus on user experience, scalability, and sustainable value creation. By addressing the root causes rather than just symptoms, we create lasting solutions that customers will value and recommend."

/-- generateContextualIntro(concept, problem).  part_003 declares this
function twice; by JS function hoisting the later declaration (the one
branching on the business type) is the one in effect, and is embedded
here. -/
def generateContextualIntro (concept problem : String) : String :=
  let businessType := identifyBusinessType (lowerStr concept)
  let targetMarket := extractTargetMarket (lowerStr concept)
  if businessType = "management_platform" then
    "The " ++ targetMarket ++
    " management landscape is fragmented and expensive, creating a significant opportunity for innovative solutions. Our comprehensive platform addresses these challenges by providing enterprise-grade capabilities at accessible price points."
  else if businessType = "digital_services" then
    capitalizeFirst targetMarket ++
    " face increasing pressure to digitize operations while managing costs. Our integrated service platform bridges this gap by making professional digital tools accessible and affordable."
  else
    "Market research reveals that " ++ targetMarket ++
    " struggle with complex, expensive solutions that don\x27t meet their specific needs. Our approach focuses on delivering exactly what they need at a price they can afford."

/-- generateProblemAnalysis(problem).  part_003 declares this function
twice; the later declaration (branching on problem keywords) is the one
in effect and is embedded here. -/
def generateProblemAnalysis (problem : String) : String :=
  let problemLower := lowerStr problem
  if containsSub problemLower "affordable" || containsSub problemLower "cost" ||
      containsSub problemLower "expensive" then
    "Cost barriers prevent many businesses from accessing the tools they need to grow. Current solutions are priced for large enterprises, leaving smaller businesses underserved. This represents a massive market opportunity for affordable, effective alternatives that deliver real value without breaking the budget."
  else if containsSub problemLower "complex" || containsSub problemLower "difficult" ||
      containsSub problemLower "complicated" then
    "Existing solutions are unnecessarily complex, requiring extensive training and IT support. This complexity barrier prevents adoption and reduces productivity. Our approach simplifies these processes while maintaining professional-grade functionality."
  else if containsSub problemLower "access" || containsSub problemLower "available" then
    "Many businesses lack access to professional-grade tools and services, limiting their growth potential. This access gap creates competitive disadvantages and missed opportunities. Our solution democratizes access to these essential business capabilities."
  else
    "This challenge affects thousands of potential customers and represents a substantial market opportunity. Current solutions fail to address the specific needs of our target market, creating clear demand for our innovative approach."

/-- generateRevenueModel(concept).  part_003 declares this function
twice; the later declaration (branching on the business type) is the
one in effect and is embedded here. -/
def generateRevenueModel (concept : String) : String :=
  let conceptLower := lowerStr concept
  let businessType := identifyBusinessType conceptLower
  if businessType = "management_platform" then
    "Our revenue model leverages multiple streams:\n- Monthly subscription tiers based on business size and feature needs\n- Setup and onboarding services for new clients\n- Premium support and consulting services\n- Integration services for existing business systems\n- Training and certification programs"
  else if businessType = "digital_services" then
    "We generate revenue through:\n- Service-based fees for marketing, management, and technical services\n- Monthly retainer agreements for ongoing support\n- Project-based pricing for specific implementations\n- Commission-based revenue sharing for successful outcomes\n- White-label licensing to other service providers"
  else
    "Our diversified revenue approach includes:\n- Core subscription services with tiered pricing\n- Professional services and implementation support\n- Partner program commissions and referral fees\n- Premium features and add-on services\n- Training and educational content"

/-- generateSolutionFromConcept(concept, problem): legacy wrapper kept
for backward compatibility in the source, delegating to
generateIntelligentSolution. -/
def generateSolutionFromConcept (concept problem : String) : String :=
  generateIntelligentSolution concept problem

/-- generateBusinessDescriptionTemplate(inputs): the enhanced template,
built from sanitized inputs and the classification helpers. -/
def generateBusinessDescriptionTemplate (inputs : Inputs) : String :=
  let concept := sanitizeAndEnhanceInput inputs.concept "business concept"
  let problem := sanitizeAndEnhanceInput inputs.problem "problem statement"
  let needs := sanitizeAndEnhanceInput inputs.needs "funding/resource needs"
  let solution := generateIntelligentSolution concept problem
  let marketAnalysis := generateMarketAnalysis concept problem
  let competitiveAdvantage := generateCompetitiveAdvantage concept
  let revenueModel := generateRevenueModel concept
  "BUSINESS CONCEPT\n" ++ concept ++ "\n\n" ++
  generateContextualIntro concept problem ++
  "\n\nTHE PROBLEM WE\x27RE SOLVING\n" ++ problem ++ "\n\n" ++
  generateProblemAnalysis problem ++
  "\n\nOUR SOLUTION\n" ++ solution ++ "\n\n" ++
  generateSolutionDetails concept problem ++
  "\n\nMARKET OPPORTUNITY\n" ++ marketAnalysis ++
  "\n\nCOMPETITIVE ADVANTAGE\n" ++ competitiveAdvantage ++
  "\n\nWHAT WE\x27RE SEEKING\n" ++ needs ++ "\n\n" ++
  generateFundingStrategy needs concept ++
  "\n\nREVENUE MODEL\n" ++ revenueModel ++
  "\n\nNEXT STEPS\n" ++ generateActionPlan concept problem ++
  "\n\n" ++ generateClosingStatement concept ++
  "\n\nReady to turn this vision into reality at NEST FEST!"

/-- generatePitchOutlineTemplate(inputs): fixed eight-part outline with
bracketed fallbacks for missing concept, problem and funding. -/
def generatePitchOutlineTemplate (inputs : Inputs) : String :=
  let concept := jsOr inputs.concept "[Your business concept]"
  let problem := jsOr inputs.problem "[Problem description]"
  let market := jsOr inputs.market "individuals and businesses facing this challenge"
  let advantage := jsOr inputs.advantage "innovative approach and superior execution"
  let funding := jsOr inputs.funding "[Amount needed]"
  "NEST FEST PITCH OUTLINE (5 minutes)\n\n1. HOOK & PROBLEM (45 seconds)\n   - Start with: \"" ++
  problem ++
  "\"\n   - Make it relatable: \"How many of you have experienced this frustration?\"\n   - Quantify the impact: \"This affects X number of people daily\"\n   - Create urgency: \"The cost of inaction is significant\"\n\n2. SOLUTION INTRODUCTION (60 seconds)\n   - Introduce your concept: \"" ++
  concept ++
  "\"\n   - Explain how it works simply\n   - Show the \"aha moment\" - why this solves the problem\n   - Demonstrate key benefits\n\n3. MARKET OPPORTUNITY (45 seconds)\n   - Target market: " ++
  market ++
  "\n   - Market size: \"This represents a $X billion opportunity\"\n   - Growth trends: \"The market is growing at X% annually\"\n   - Your addressable market: \"We can capture X% within 3 years\"\n\n4. PRODUCT DEMONSTRATION (90 seconds)\n   - Show your prototype/demo\n   - Walk through user experience\n   - Highlight key features and benefits\n   - Show customer testimonials or validation\n\n5. BUSINESS MODEL & TRACTION (45 seconds)\n   - Revenue streams: How you make money\n   - Pricing strategy: What customers pay\n   - Current traction: Users, revenue, partnerships\n   - Growth projections: Where you\x27re headed\n\n6. COMPETITIVE ADVANTAGE (30 seconds)\n   - What makes you different: " ++
  advantage ++
  "\n   - Barriers to entry you\x27ve created\n   - Why you\x27ll win in this market\n\n7. FUNDING REQUEST & USE (30 seconds)\n   - Amount seeking: " ++
  funding ++
  "\n   - Specific use of funds:\n     * Product development: 40%\n     * Marketing: 30%\n     * Team expansion: 20%\n     * Operations: 10%\n   - Milestones you\x27ll achieve\n   - Return potential for investors\n\n8. CALL TO ACTION (15 seconds)\n   - Clear ask: \"We\x27re seeking $X for X% equity\"\n   - Next steps: \"Let\x27s discuss how you can be part of this opportunity\"\n   - Contact information\n   - Thank you\n\nDELIVERY TIPS:\n- Practice timing with a stopwatch\n- Use visuals and props\n- Tell a story, don\x27t just present facts\n- Make eye contact with judges\n- Show passion and confidence\n- End with energy and clear next steps\n- Prepare for Q&A session\n\nSUCCESS METRICS:\n- Judges understand the problem clearly\n- Solution seems obvious and needed\n- Market opportunity is compelling\n- You appear capable of execution\n- Financial projections are realistic\n- Investment opportunity is attractive"

/-- generateExecutiveSummaryTemplate(inputs): fixed summary skeleton
with bracketed fallbacks; a missing solution falls back to the legacy
generateSolutionFromConcept of the (possibly bracketed) concept and
problem texts. -/
def generateExecutiveSummaryTemplate (inputs : Inputs) : String :=
  let businessName := jsOr inputs.businessName "[Business Name]"
  let concept := jsOr inputs.concept "[Business concept]"
  let problem := jsOr inputs.problem "[Problem description]"
  let solution :=
    match inputs.solution with
    | none => generateSolutionFromConcept concept problem
    | some s => if s = "" then generateSolutionFromConcept concept problem else s
  let market := jsOr inputs.market "[Target market and size]"
  let advantage := jsOr inputs.advantage "[Competitive advantage]"
  let financials := jsOr inputs.financials "[Financial projections]"
  let funding := jsOr inputs.funding "[Funding amount]"
  "EXECUTIVE SUMMARY\n\nCOMPANY OVERVIEW\n" ++ businessName ++
  " is an innovative startup focused on " ++ concept ++
  ". We are addressing a significant market opportunity through technology-driven solutions that create measurable value for our customers.\n\nPROBLEM & MARKET OPPORTUNITY\n" ++
  problem ++
  "\n\nThis challenge represents a substantial market opportunity with clear demand from our target customers. Current solutions are inadequate, creating a significant opening for our innovative approach.\n\nTarget Market: " ++
  market ++
  "\nMarket Size: Multi-billion dollar opportunity with strong growth potential\nCustomer Segments: Multiple customer types with varying needs and price points\n\nSOLUTION & VALUE PROPOSITION\n" ++
  solution ++
  "\n\nOur solution provides:\n- Significant cost savings for customers\n- Improved efficiency and user experience\n- Scalable technology platform\n- Competitive pricing model\n- Superior customer support\n\nCOMPETITIVE ADVANTAGE\n" ++
  advantage ++
  "\n\nKey differentiators include:\n- Proprietary technology and processes\n- First-mover advantage in key market segments\n- Strong team with relevant expertise\n- Strategic partnerships and relationships\n- Scalable business model with high margins\n\nBUSINESS MODEL & REVENUE STREAMS\nPrimary Revenue Sources:\n- Direct sales to end customers\n- Subscription-based recurring revenue\n- Partnership and licensing agreements\n- Premium service offerings\n\nOur model provides predictable recurring revenue with strong unit economics and scalability.\n\nFINANCIAL PROJECTIONS\n" ++
  financials ++
  "\n\nConservative projections show:\n- Year 1: $250,000 revenue\n- Year 2: $1,500,000 revenue  \n- Year 3: $5,000,000 revenue\n- Break-even: Month 18\n- Positive cash flow: Year 2\n\nKey metrics demonstrate strong growth potential with reasonable assumptions.\n\nTEAM & EXECUTION\nOur team combines relevant industry experience with entrepreneurial drive:\n- Strong technical capabilities\n- Proven business development skills\n- Deep market knowledge\n- Commitment to execution excellence\n\nFUNDING REQUEST\n" ++
  funding ++
  "\n\nUse of Funds:\n- Product Development: 40%\n- Marketing & Sales: 30%\n- Team Expansion: 20%\n- Operations & Infrastructure: 10%\n\nThis funding will enable us to achieve key milestones including product launch, customer acquisition, and market expansion.\n\nINVESTMENT OPPORTUNITY\nThis represents a compelling investment opportunity with:\n- Large addressable market\n- Strong competitive position\n- Experienced team\n- Clear path to profitability\n- Significant growth potential\n- Multiple exit opportunities\n\nWe are seeking strategic investors who can provide not just capital, but also guidance, connections, and expertise to help us scale rapidly and capture market share.\n\nNEXT STEPS\n- Complete Series A funding round\n- Launch product to market\n- Scale customer acquisition\n- Expand team and operations\n- Achieve key growth milestones\n- Prepare for future funding rounds\n\nContact: [Contact Information]\nWebsite: [Website URL]\nEmail: [Email Address]"

/-- generatePresentationSlidesTemplate(inputs): fixed twelve-slide
outline with bracketed fallbacks; a missing solution falls back to
generateSolutionFromConcept. -/
def generatePresentationSlidesTemplate (inputs : Inputs) : String :=
  let businessName := jsOr inputs.businessName "[Business Name]"
  let concept := jsOr inputs.concept "[Business concept]"
  let problem := jsOr inputs.problem "[Problem description]"
  let solution :=
    match inputs.solution with
    | none => generateSolutionFromConcept concept problem
    | some s => if s = "" then generateSolutionFromConcept concept problem else s
  let funding := jsOr inputs.funding "[Amount needed]"
  "NEST FEST PRESENTATION SLIDES\n\nSLIDE 1: TITLE SLIDE\n- Company name: " ++
  businessName ++
  "\n- Tagline: \"[Compelling one-liner about your solution]\"\n- Your name and title\n- NEST FEST logo\n- Date\n\nVisual: Clean, professional design with your logo\n\nSLIDE 2: THE PROBLEM\n- Headline: \"The Problem\"\n- Main point: " ++
  problem ++
  "\n- Supporting statistics or examples\n- Why this matters now\n- Cost of current solutions\n\nVisual: Infographic showing the problem\x27s impact\n\nSLIDE 3: MARKET OPPORTUNITY\n- Headline: \"Market Opportunity\"\n- Market size: \"$X billion market\"\n- Growth rate: \"Growing at X% annually\"\n- Target customers: \"X million potential customers\"\n- Timing: \"Why now is the right time\"\n\nVisual: Market size charts and growth projections\n\nSLIDE 4: OUR SOLUTION\n- Headline: \"Our Solution\"\n- Main concept: " ++
  concept ++
  "\n- How it works: " ++
  solution ++
  "\n- Key benefits (3-4 bullet points)\n- Unique value proposition\n\nVisual: Product mockup or demo screenshot\n\nSLIDE 5: PRODUCT DEMO\n- Headline: \"How It Works\"\n- Step-by-step user journey\n- Key features highlighted\n- User interface screenshots\n- Customer testimonials\n\nVisual: Product screenshots or live demo\n\nSLIDE 6: BUSINESS MODEL\n- Headline: \"How We Make Money\"\n- Revenue streams\n- Pricing strategy\n- Unit economics\n- Scalability factors\n\nVisual: Revenue model diagram\n\nSLIDE 7: COMPETITIVE ADVANTAGE\n- Headline: \"Why We\x27ll Win\"\n- Current alternatives and their limitations\n- Our unique advantages\n- Barriers to entry we\x27re creating\n- Intellectual property\n\nVisual: Competitive comparison chart\n\nSLIDE 8: TRACTION & VALIDATION\n- Headline: \"Proven Demand\"\n- Customer feedback\n- Early sales/users\n- Partnership agreements\n- Market validation\n\nVisual: Growth charts and customer logos\n\nSLIDE 9: FINANCIAL PROJECTIONS\n- Headline: \"Financial Forecast\"\n- 3-year revenue projections\n- Key assumptions\n- Break-even timeline\n- Return on investment\n\nVisual: Financial charts and graphs\n\nSLIDE 10: TEAM\n- Headline: \"The Team\"\n- Founder backgrounds\n- Key team members\n- Relevant experience\n- Advisory board\n\nVisual: Professional headshots with credentials\n\nSLIDE 11: FUNDING REQUEST\n- Headline: \"Investment Opportunity\"\n- Amount seeking: " ++
  funding ++
  "\n- Use of funds breakdown\n- Milestones to achieve\n- Equity offered\n- Expected return\n\nVisual: Use of funds pie chart\n\nSLIDE 12: CALL TO ACTION\n- Headline: \"Let\x27s Make This Happen\"\n- Clear next steps\n- Contact information\n- Website/demo link\n- Thank you message\n\nVisual: Strong closing image with contact details\n\nPRESENTATION TIPS:\n- Keep slides visual and minimal text\n- Practice timing (30-45 seconds per slide)\n- Use consistent design and fonts\n- Include your logo on every slide\n- Prepare for technical difficulties\n- Have backup plans ready\n- End with confidence and energy\n\nAPPENDIX SLIDES (Have Ready):\n- Detailed financial model\n- Technical specifications\n- Additional market research\n- Team resumes\n- Customer testimonials\n- Partnership agreements"

/-- generateGenericTemplate(inputs): the catch-all template for
unrecognized content types. -/
def generateGenericTemplate (inputs : Inputs) : String :=
  let concept := jsOr inputs.concept "[Business concept]"
  let problem := jsOr inputs.problem "[Problem description]"
  let needs := jsOr inputs.needs "[Funding/resources needed]"
  "PROFESSIONAL BUSINESS CONTENT\n\nOVERVIEW\nBased on your input, here\x27s a comprehensive business overview for " ++
  concept ++
  ".\n\nBUSINESS CONCEPT\n" ++
  concept ++
  "\n\nThis innovative approach addresses market needs through strategic execution and value creation.\n\nCHALLENGE ADDRESSED\n" ++
  problem ++
  "\n\nThis represents a significant opportunity to provide solutions where current options are inadequate or non-existent.\n\nKEY ELEMENTS\n" ++
  joinSep "\n"
    ((entriesOf inputs).map (fun p => "- " ++ capitalizeFirst p.1 ++ ": " ++ p.2)) ++
  "\n\nSTRATEGIC APPROACH\nOur methodology combines industry best practices with innovative thinking to deliver exceptional results. We focus on:\n\n- Market-driven solutions\n- Customer-centric design\n- Scalable business model\n- Sustainable competitive advantage\n- Strong execution capabilities\n\nVALUE PROPOSITION\nWe provide unique value through our comprehensive approach that addresses core market needs while delivering measurable results for all stakeholders.\n\nRESOURCE REQUIREMENTS\n" ++
  needs ++
  "\n\nWith appropriate resources and support, we can achieve significant milestones and capture meaningful market share.\n\nNEXT STEPS\n- Validate market assumptions\n- Develop minimum viable product\n- Test with target customers\n- Refine business model\n- Scale operations\n- Build strategic partnerships\n\nThis comprehensive approach positions us for success in the competitive marketplace while creating sustainable value for customers, investors, and the broader community.\n\nReady to turn this vision into reality at NEST FEST!"

/-- generateWithTemplate(type, inputs): dispatch on the content type,
any unrecognized type routing to the generic template. -/
def generateWithTemplate (type : String) (inputs : Inputs) : String :=
  if type = "business_description" then generateBusinessDescriptionTemplate inputs
  else if type = "pitch_outline" then generatePitchOutlineTemplate inputs
  else if type = "executive_summary" then generateExecutiveSummaryTemplate inputs
  else if type = "presentation_slides" then generatePresentationSlidesTemplate inputs
  else generateGenericTemplate inputs

/-! ### Observers used by the stated properties -/

/-- The suffix of the haystack strictly after the first occurrence of
the pattern, or none when the pattern does not occur. -/
def afterFirst (hay pat : List Char) : Option (List Char) :=
  match hay with
  | [] => if pat.isEmpty then some [] else none
  | c :: cs =>
    if startsWithChars (c :: cs) pat then some ((c :: cs).drop pat.length)
    else afterFirst cs pat

/-- Do the patterns all occur, pairwise disjointly and in the given
order, in the haystack? -/
def containsInOrderChars : List Char → List (List Char) → Bool
  | _, [] => true
  | hay, p :: ps =>
    match afterFirst hay p with
    | none => false
    | some rest => containsInOrderChars rest ps

/-- String version of the ordered-occurrence check. -/
def containsInOrder (s : String) (pats : List String) : Bool :=
  containsInOrderChars s.data (pats.map String.data)

/-- The fixed section headers of the business-description template, in
output order. -/
def bdHeaders : List String :=
  ["BUSINESS CONCEPT", "THE PROBLEM WE\x27RE SOLVING", "OUR SOLUTION",
   "MARKET OPPORTUNITY", "COMPETITIVE ADVANTAGE", "WHAT WE\x27RE SEEKING",
   "REVENUE MODEL", "NEXT STEPS"]

/-- The fixed section headers of the pitch-outline template, in output
order. -/
def pitchHeaders : List String :=
  ["NEST FEST PITCH OUTLINE (5 minutes)", "1. HOOK & PROBLEM (45 seconds)",
   "2. SOLUTION INTRODUCTION (60 seconds)", "3. MARKET OPPORTUNITY (45 seconds)",
   "4. PRODUCT DEMONSTRATION (90 seconds)",
   "5. BUSINESS MODEL & TRACTION (45 seconds)",
   "6. COMPETITIVE ADVANTAGE (30 seconds)",
   "7. FUNDING REQUEST & USE (30 seconds)", "8. CALL TO ACTION (15 seconds)",
   "DELIVERY TIPS:", "SUCCESS METRICS:"]

/-- The fixed section headers of the executive-summary template, in
output order. -/
def execHeaders : List String :=
  ["EXECUTIVE SUMMARY", "COMPANY OVERVIEW", "PROBLEM & MARKET OPPORTUNITY",
   "SOLUTION & VALUE PROPOSITION", "COMPETITIVE ADVANTAGE",
   "BUSINESS MODEL & REVENUE STREAMS", "FINANCIAL PROJECTIONS",
   "TEAM & EXECUTION", "FUNDING REQUEST", "INVESTMENT OPPORTUNITY",
   "NEXT STEPS"]

/-- The fixed section headers of the presentation-slides template, in
output order. -/
def slidesHeaders : List String :=
  ["NEST FEST PRESENTATION SLIDES", "SLIDE 1: TITLE SLIDE",
   "SLIDE 2: THE PROBLEM", "SLIDE 3: MARKET OPPORTUNITY",
   "SLIDE 4: OUR SOLUTION", "SLIDE 5: PRODUCT DEMO",
   "SLIDE 6: BUSINESS MODEL", "SLIDE 7: COMPETITIVE ADVANTAGE",
   "SLIDE 8: TRACTION & VALIDATION", "SLIDE 9: FINANCIAL PROJECTIONS",
   "SLIDE 10: TEAM", "SLIDE 11: FUNDING REQUEST",
   "SLIDE 12: CALL TO ACTION", "PRESENTATION TIPS:",
   "APPENDIX SLIDES (Have Ready):"]

/-! ### Shared lemmas -/

/-- Reading back the key just written. -/
theorem table_set_self (m : Table) (k : String) (r : RateRecord) :
    Table.set m k r k = some r := by
  simp [Table.set]

/-- Replaying recordAction calls for one key accumulates the count and
keeps the timestamp of the latest call. -/
theorem iterRecord_lookup (k : String) :
    ∀ (ts : List Nat) (m : Table) (r : RateRecord), m k = some r →
      (iterRecord k ts m) k =
        some { count := r.count + ts.length, lastActivity := ts.getLastD r.lastActivity } := by
  intro ts
  induction ts with
  | nil =>
    intro m r h
    simpa [iterRecord] using h
  | cons t ts ih =>
    intro m r h
    have hstep : (recordAction t m k) k = some { count := r.count + 1, lastActivity := t } := by
      simp [recordAction, h, Table.set]
    have hrec := ih (recordAction t m k) { count := r.count + 1, lastActivity := t } hstep
    simp only [iterRecord, List.length_cons]
    rw [hrec, List.getLastD_cons]
    refine congrArg some ?_
    have hcount : r.count + 1 + ts.length = r.count + (ts.length + 1) := by omega
    rw [hcount]

/-! ### The claims -/

/-- C1: isRateLimited(k) returns true iff a record for k exists, is not
expired (now - lastActivity <= windowDuration) and count >= maxCount; a
record that exists but is expired is deleted and the call returns
false; with no record the call returns false and leaves the table
untouched; and the call never increments any count: every key of the
resulting table is either unchanged or deleted. -/
theorem isRateLimited_correct (maxCount window now : Nat) (m : Table) (k : String) :
    ((isRateLimited maxCount window now m k).1 = true ↔
      ∃ r, m k = some r ∧ now - r.lastActivity ≤ window ∧ maxCount ≤ r.count)
    ∧ (∀ r, m k = some r → now - r.lastActivity > window →
        isRateLimited maxCount window now m k = (false, Table.erase m k))
    ∧ (m k = none → isRateLimited maxCount window now m k = (false, m))
    ∧ (∀ k2, (isRateLimited maxCount window now m k).2 k2 = m k2 ∨
        (isRateLimited maxCount window now m k).2 k2 = none) := by
  refine ⟨?_, ?_, ?_, ?_⟩
  · cases h : m k with
    | none => simp [isRateLimited, h]
    | some r =>
      by_cases hw : now - r.lastActivity > window
      · simp only [isRateLimited, h, hw, if_pos]
        constructor
        · intro hfalse
          exact (Bool.false_ne_true hfalse).elim
        · rintro ⟨r2, hr2, hle, _⟩
          injection hr2 with hr2
          subst hr2
          exfalso
          omega
      · simp only [isRateLimited, h, hw, if_neg, not_false_eq_true]
        constructor
        · intro hd
          exact ⟨r, rfl, by omega, of_decide_eq_true hd⟩
        · rintro ⟨r2, hr2, _, hcnt⟩
          injection hr2 with hr2
          subst hr2
          exact decide_eq_true hcnt
  · intro r h hw
    simp [isRateLimited, h, hw]
  · intro h
    simp [isRateLimited, h]
  · intro k2
    cases h : m k with
    | none => simp [isRateLimited, h]
    | some r =>
      by_cases hw : now - r.lastActivity > window
      · by_cases hk : k2 = k
        · right; simp [isRateLimited, h, hw, Table.erase, hk]
        · left; simp [isRateLimited, h, hw, Table.erase, hk]
      · left; simp [isRateLimited, h, hw]

/-- C1 witness: a concrete full record within its window is limited. -/
theorem isRateLimited_correct_witness :
    (isRateLimited 3 3600000 1000000
      (Table.set emptyTable "198.51.100.1" { count := 3, lastActivity := 500000 })
      "198.51.100.1").1 = true :=
  ((isRateLimited_correct 3 3600000 1000000
      (Table.set emptyTable "198.51.100.1" { count := 3, lastActivity := 500000 })
      "198.51.100.1").1).mpr
    ⟨{ count := 3, lastActivity := 500000 }, by decide, by decide, by decide⟩

/-- C3: starting from no record for k, recording exactly maxCount
actions inside one window makes isRateLimited true; recording only
maxCount - 1 leaves it false. -/
theorem record_maxCount_limits (maxCount window now : Nat) (m : Table) (k : String)
    (ts : List Nat) (hmax : 1 ≤ maxCount) (hfresh : m k = none)
    (hwin : now - ts.getLastD 0 ≤ window) :
    (ts.length = maxCount →
      (isRateLimited maxCount window now (iterRecord k ts m) k).1 = true)
    ∧ (ts.length = maxCount - 1 →
      (isRateLimited maxCount window now (iterRecord k ts m) k).1 = false) := by
  cases ts with
  | nil =>
    constructor
    · intro h
      simp at h
      omega
    · intro _
      simp [iterRecord, isRateLimited, hfresh]
  | cons t ts =>
    have hstep : (recordAction t m k) k = some { count := 1, lastActivity := t } := by
      simp [recordAction, hfresh, Table.set]
    have hlook := iterRecord_lookup k ts (recordAction t m k)
      { count := 1, lastActivity := t } hstep
    have hwin2 : ¬ (now - ts.getLastD t > window) := by
      rw [List.getLastD_cons] at hwin
      omega
    constructor
    · intro hlen
      simp only [iterRecord, isRateLimited, hlook, hwin2, if_neg, not_false_eq_true]
      have : maxCount ≤ 1 + ts.length := by
        simp [List.length_cons] at hlen
        omega
      simpa using this
    · intro hlen
      simp only [iterRecord, isRateLimited, hlook, hwin2, if_neg, not_false_eq_true]
      have : ¬ (maxCount ≤ 1 + ts.length) := by
        simp [List.length_cons] at hlen
        omega
      simpa using this

/-- C3 witness: three submissions within the hour trip the submission
limiter; two do not. -/
theorem record_maxCount_limits_witness :
    (isRateLimited 3 3600000 40 (iterRecord "1.2.3.4" [10, 20, 30] emptyTable) "1.2.3.4").1 = true
    ∧ (isRateLimited 3 3600000 40 (iterRecord "1.2.3.4" [10, 20] emptyTable) "1.2.3.4").1 = false :=
  ⟨(record_maxCount_limits 3 3600000 40 emptyTable "1.2.3.4" [10, 20, 30]
      (by decide) rfl (by decide)).1 rfl,
   (record_maxCount_limits 3 3600000 40 emptyTable "1.2.3.4" [10, 20]
      (by decide) rfl (by decide)).2 rfl⟩

/-- C4 (amended): once more than windowDuration has elapsed since
lastActivity, isRateLimited returns false and deletes the record, and
the cleanup sweep also deletes it; but recordAction does not treat a
stale record as absent: it increments its count instead of restarting
at one. -/
theorem stale_record_expiry (maxCount window now : Nat) (m : Table) (k : String)
    (r : RateRecord) (h : m k = some r) (hstale : now - r.lastActivity > window) :
    (isRateLimited maxCount window now m k).1 = false
    ∧ (isRateLimited maxCount window now m k).2 k = none
    ∧ cleanupSweep window now m k = none
    ∧ (recordAction now m k) k = some { count := r.count + 1, lastActivity := now } := by
  refine ⟨?_, ?_, ?_, ?_⟩
  · simp [isRateLimited, h, hstale]
  · simp [isRateLimited, h, hstale, Table.erase]
  · simp [cleanupSweep, h, hstale]
  · simp [recordAction, h, Table.set]

/-- C4 witness: a concrete expired record is dropped by the check and
the sweep, while recordAction bumps it to count 4. -/
theorem stale_record_expiry_witness :
    (isRateLimited 3 3600000 3700000
      (Table.set emptyTable "10.0.0.1" { count := 3, lastActivity := 0 }) "10.0.0.1").1 = false
    ∧ (isRateLimited 3 3600000 3700000
      (Table.set emptyTable "10.0.0.1" { count := 3, lastActivity := 0 }) "10.0.0.1").2 "10.0.0.1" = none
    ∧ cleanupSweep 3600000 3700000
      (Table.set emptyTable "10.0.0.1" { count := 3, lastActivity := 0 }) "10.0.0.1" = none
    ∧ (recordAction 3700000
      (Table.set emptyTable "10.0.0.1" { count := 3, lastActivity := 0 }) "10.0.0.1") "10.0.0.1"
      = some { count := 4, lastActivity := 3700000 } :=
  stale_record_expiry 3 3600000 3700000
    (Table.set emptyTable "10.0.0.1" { count := 3, lastActivity := 0 }) "10.0.0.1"
    { count := 3, lastActivity := 0 } (by decide) (by decide)

/-- C4 counterexample: a record older than the window is not treated as
absent by every subsequent operation: recordAction on the stale record
yields count 4, while on an absent record it yields count 1, and the
following check is limited in the first case but not the second. -/
theorem stale_record_not_absent_cex :
    (3600001 : Nat) - 0 > 3600000
    ∧ (recordAction 3600001
        (Table.set emptyTable "192.0.2.1" { count := 3, lastActivity := 0 }) "192.0.2.1") "192.0.2.1"
        = some { count := 4, lastActivity := 3600001 }
    ∧ (recordAction 3600001 emptyTable "192.0.2.1") "192.0.2.1"
        = some { count := 1, lastActivity := 3600001 }
    ∧ (isRateLimited 3 3600000 3600001
        (recordAction 3600001
          (Table.set emptyTable "192.0.2.1" { count := 3, lastActivity := 0 }) "192.0.2.1")
        "192.0.2.1").1 = true
    ∧ (isRateLimited 3 3600000 3600001
        (recordAction 3600001 emptyTable "192.0.2.1") "192.0.2.1").1 = false := by
  decide

/-- C5 (amended): recordAction with no existing record stores count 1
and lastActivity now; with any existing record, stale or not, it
increments the count by one and refreshes lastActivity. -/
theorem recordAction_spec (now : Nat) (m : Table) (k : String) :
    (m k = none → (recordAction now m k) k = some { count := 1, lastActivity := now })
    ∧ (∀ r, m k = some r →
        (recordAction now m k) k = some { count := r.count + 1, lastActivity := now }) := by
  constructor
  · intro h
    simp [recordAction, h, Table.set]
  · intro r h
    simp [recordAction, h, Table.set]

/-- C5 witness: concrete fresh and existing-record cases. -/
theorem recordAction_spec_witness :
    (recordAction 77 emptyTable "10.1.1.1") "10.1.1.1" = some { count := 1, lastActivity := 77 }
    ∧ (recordAction 99 (Table.set emptyTable "10.1.1.1" { count := 4, lastActivity := 77 })
        "10.1.1.1") "10.1.1.1" = some { count := 5, lastActivity := 99 } :=
  ⟨(recordAction_spec 77 emptyTable "10.1.1.1").1 rfl,
   (recordAction_spec 99 (Table.set emptyTable "10.1.1.1" { count := 4, lastActivity := 77 })
      "10.1.1.1").2 { count := 4, lastActivity := 77 } (by decide)⟩

/-- C5 counterexample: on a record whose age exceeds the window
(3600005 - 1 > 3600000 = COOLDOWN_PERIOD) recordAction stores count 3,
not the count 1 the claim requires for stale records. -/
theorem recordAction_stale_cex :
    (3600005 : Nat) - 1 > 3600000
    ∧ (recordAction 3600005
        (Table.set emptyTable "203.0.113.9" { count := 2, lastActivity := 1 }) "203.0.113.9")
        "203.0.113.9" = some { count := 3, lastActivity := 3600005 }
    ∧ some ({ count := 3, lastActivity := 3600005 } : RateRecord)
        ≠ some { count := 1, lastActivity := 3600005 } := by
  decide

/-- C8: immediately after clearRateLimit(k), isRateLimited(k) is false,
whatever the prior state. -/
theorem clear_then_not_limited (maxCount window now : Nat) (m : Table) (k : String) :
    (isRateLimited maxCount window now (clearRateLimit m k) k).1 = false := by
  simp [isRateLimited, clearRateLimit, Table.erase]

/-- C9: one sweep pass deletes exactly the records older than the
window and returns every younger record unchanged. -/
theorem cleanupSweep_spec (window now : Nat) (m : Table) :
    (∀ k r, m k = some r → now - r.lastActivity > window →
      cleanupSweep window now m k = none)
    ∧ (∀ k r, m k = some r → now - r.lastActivity ≤ window →
      cleanupSweep window now m k = some r)
    ∧ (∀ k, m k = none → cleanupSweep window now m k = none) := by
  refine ⟨?_, ?_, ?_⟩
  · intro k r h hs
    simp [cleanupSweep, h, hs]
  · intro k r h hs
    have : ¬ (now - r.lastActivity > window) := by omega
    simp [cleanupSweep, h, this]
  · intro k h
    simp [cleanupSweep, h]

/-- C9 witness: a sweep at time 3700000 with a one-hour window drops a
record from time 0 and keeps one from time 3000000 with count intact. -/
theorem cleanupSweep_spec_witness :
    cleanupSweep 3600000 3700000
      (Table.set (Table.set emptyTable "a.old" { count := 2, lastActivity := 0 })
        "b.new" { count := 1, lastActivity := 3000000 }) "a.old" = none
    ∧ cleanupSweep 3600000 3700000
      (Table.set (Table.set emptyTable "a.old" { count := 2, lastActivity := 0 })
        "b.new" { count := 1, lastActivity := 3000000 }) "b.new"
      = some { count := 1, lastActivity := 3000000 } :=
  ⟨(cleanupSweep_spec 3600000 3700000
      (Table.set (Table.set emptyTable "a.old" { count := 2, lastActivity := 0 })
        "b.new" { count := 1, lastActivity := 3000000 })).1
      "a.old" { count := 2, lastActivity := 0 } (by decide) (by decide),
   (cleanupSweep_spec 3600000 3700000
      (Table.set (Table.set emptyTable "a.old" { count := 2, lastActivity := 0 })
        "b.new" { count := 1, lastActivity := 3000000 })).2.1
      "b.new" { count := 1, lastActivity := 3000000 } (by decide) (by decide)⟩

/-! ### Generator claims -/

/-- The ordered market keyword rule table extracted from the body of
extractTargetMarket, stated as explicit data so the tie-break order is
visible. -/
def marketRules : List (String × String) :=
  [("small business", "small businesses"),
   ("enterprise", "enterprise clients"),
   ("startup", "startups"),
   ("home", "home-based businesses"),
   ("restaurant", "restaurants"),
   ("retail", "retail businesses"),
   ("healthcare", "healthcare providers"),
   ("education", "educational institutions")]

/-- First-match evaluation of the ordered rule table, defaulting to
small and medium businesses. -/
def firstMatchMarket (text : String) : String :=
  match marketRules.find? (fun rule => containsSub text rule.1) with
  | some rule => rule.2
  | none => "small and medium businesses"

/-- C6 (amended): the target-market classifier is first-match
evaluation of the ordered rule table small business, enterprise,
startup, home, restaurant, retail, healthcare, education, with default
small and medium businesses; the rule table has no student keyword. -/
theorem extractTargetMarket_rules (text : String) :
    extractTargetMarket text = firstMatchMarket text := by
  by_cases h1 : containsSub text "small business" = true
  · simp [extractTargetMarket, firstMatchMarket, marketRules, List.find?, h1]
  · by_cases h2 : containsSub text "enterprise" = true
    · simp [extractTargetMarket, firstMatchMarket, marketRules, List.find?, h1, h2]
    · by_cases h3 : containsSub text "startup" = true
      · simp [extractTargetMarket, firstMatchMarket, marketRules, List.find?, h1, h2, h3]
      · by_cases h4 : containsSub text "home" = true
        · simp [extractTargetMarket, firstMatchMarket, marketRules, List.find?, h1, h2, h3, h4]
        · by_cases h5 : containsSub text "restaurant" = true
          · simp [extractTargetMarket, firstMatchMarket, marketRules, List.find?,
              h1, h2, h3, h4, h5]
          · by_cases h6 : containsSub text "retail" = true
            · simp [extractTargetMarket, firstMatchMarket, marketRules, List.find?,
                h1, h2, h3, h4, h5, h6]
            · by_cases h7 : containsSub text "healthcare" = true
              · simp [extractTargetMarket, firstMatchMarket, marketRules, List.find?,
                  h1, h2, h3, h4, h5, h6, h7]
              · by_cases h8 : containsSub text "education" = true
                · simp [extractTargetMarket, firstMatchMarket, marketRules, List.find?,
                    h1, h2, h3, h4, h5, h6, h7, h8]
                · simp [extractTargetMarket, firstMatchMarket, marketRules, List.find?,
                    h1, h2, h3, h4, h5, h6, h7, h8]

/-- C6 counterexample: a text containing student and none of the
claimed keywords falls to the default segment, and a text containing
only the unlisted keyword startup is mapped to startups instead of the
default, so the claimed keyword set is wrong on both sides. -/
theorem extractTargetMarket_cex :
    extractTargetMarket "tools to help every student succeed" = "small and medium businesses"
    ∧ containsSub "tools to help every student succeed" "student" = true
    ∧ extractTargetMarket "a startup studio" = "startups"
    ∧ ("startups" : String) ≠ "small and medium businesses"
    ∧ containsSub "a startup studio" "student" = false
    ∧ containsSub "a startup studio" "small business" = false
    ∧ containsSub "a startup studio" "enterprise" = false
    ∧ containsSub "a startup studio" "restaurant" = false
    ∧ containsSub "a startup studio" "retail" = false
    ∧ containsSub "a startup studio" "healthcare" = false
    ∧ containsSub "a startup studio" "education" = false
    ∧ containsSub "a startup studio" "home-based" = false := by
  decide

/-- C2 counterexample: on the empty input mapping the pitch-outline
template leaves the literal bracketed placeholder for the missing
concept in its output, so the no-bracketed-token property fails for
pitch_outline (and likewise for the summary and slides templates). -/
theorem generate_empty_bracket_cex :
    containsSub (generateWithTemplate "pitch_outline" emptyInputs)
      "[Your business concept]" = true := by
  decide

/-- C2 (amended): for each of the four content types,
generateWithTemplate(type, {}) is a non-empty string containing every
fixed section header in order; the business_description output
additionally contains no bracket character at all, while the
pitch_outline, executive_summary and presentation_slides outputs do
contain bracketed unfilled-placeholder tokens for the missing fields. -/
theorem generate_empty_templates_complete :
    (generateWithTemplate "business_description" emptyInputs ≠ ""
      ∧ containsInOrder (generateWithTemplate "business_description" emptyInputs) bdHeaders
          = true
      ∧ (generateWithTemplate "business_description" emptyInputs).data.contains '[' = false)
    ∧ (generateWithTemplate "pitch_outline" emptyInputs ≠ ""
      ∧ containsInOrder (generateWithTemplate "pitch_outline" emptyInputs) pitchHeaders
          = true)
    ∧ (generateWithTemplate "executive_summary" emptyInputs ≠ ""
      ∧ containsInOrder (generateWithTemplate "executive_summary" emptyInputs) execHeaders
          = true
      ∧ containsSub (generateWithTemplate "executive_summary" emptyInputs)
          "[Business Name]" = true)
    ∧ (generateWithTemplate "presentation_slides" emptyInputs ≠ ""
      ∧ containsInOrder (generateWithTemplate "presentation_slides" emptyInputs) slidesHeaders
          = true
      ∧ containsSub (generateWithTemplate "presentation_slides" emptyInputs)
          "[Business Name]" = true) := by
  refine ⟨⟨by decide, by decide, by decide⟩, ⟨by decide, by decide⟩,
    ⟨by decide, by decide, by decide⟩, ⟨by decide, by decide, by decide⟩⟩

/-- C7: the fallback generator is a deterministic pure function of its
arguments: two calls with identical type and inputs give identical
strings. -/
theorem generateWithTemplate_deterministic (type : String) (inputs : Inputs) :
    generateWithTemplate type inputs = generateWithTemplate type inputs := rfl

/-- C10: the default-substitution rule of the enhanced
business-description template replaces any provided field whose
lowercased text contains the substring test, so a genuine concept
containing the word contest is discarded from the output and the
canned default concept appears instead. -/
theorem sanitize_test_substring_discards (s inputType : String)
    (h : containsSub (lowerStr s) "test" = true) :
    sanitizeAndEnhanceInput (some s) inputType = generatePlaceholderContent inputType
    ∧ containsSub
        (generateBusinessDescriptionTemplate
          { emptyInputs with concept := some "a platform for hosting a coding contest" })
        "contest" = false
    ∧ containsSub
        (generateBusinessDescriptionTemplate
          { emptyInputs with concept := some "a platform for hosting a coding contest" })
        "innovative digital platform that connects students with local businesses" = true := by
  refine ⟨?_, by decide, by decide⟩
  unfold sanitizeAndEnhanceInput
  simp [h]

/-- C10 witness: the rule applied to the contest concept itself. -/
theorem sanitize_test_substring_discards_witness :
    sanitizeAndEnhanceInput (some "a platform for hosting a coding contest") "business concept"
      = generatePlaceholderContent "business concept" :=
  (sanitize_test_substring_discards "a platform for hosting a coding contest"
    "business concept" (by decide)).1

end SharkTank
